import Mathlib

/-!
Shallow embedding of the movie-recommender backend (src/app.py).

The service has three pieces of logic:
  * `fetch_trending_movies` — wraps the outbound TMDB call, returning the
    `results` field of the decoded body, and converting any transport or
    status failure into an `HTTPException(500, "Error fetching TMDB data: …")`.
  * `get_cached_trending_movies` — reads the singleton cache document at
    `cache/trending_movies`, serves it when its timestamp is fresh
    (strictly less than `CACHE_DURATION` = 86400 seconds old), and
    otherwise refreshes: fetch, overwrite the document in full with the
    fetched list plus the current time, return the fetched list.
  * `track_interaction` — appends one interaction record under a freshly
    generated key and returns that key.

The embedding makes the implicit effects explicit:
  * time is an integer number of seconds (`datetime.now()` becomes a `now`
    parameter; `isoformat`/`fromisoformat` round-trip through it);
  * the behaviour of the external TMDB endpoint for the (at most one)
    outbound call a handler makes is a `FetchOutcome` parameter;
  * the store state is passed in and returned;
  * two booleans record whether the external client was invoked and
    whether the cache document was written during the call.
-/

namespace MovieRec

/-- The value read by `cache_doc.get("timestamp")`, partitioned by how the
code consumes it: absent (`missing`, i.e. Python `None`), present but falsy
(`emptyStr`, the empty string, rejected by the `if cached_time:` truthiness
test), present and non-empty but rejected by `datetime.fromisoformat`
(`invalid`), or parsed by `datetime.fromisoformat` to the point in time `t`
in seconds (`valid`). -/
inductive TsVal where
  | missing : TsVal
  | emptyStr : TsVal
  | invalid (s : String) : TsVal
  | valid (t : Int) : TsVal
  deriving DecidableEq, Repr

/-- The singleton cache document stored at `cache/trending_movies`:
a dictionary whose `timestamp` and `movies` keys may each be absent.
Movie records are opaque (`α`), passed through verbatim. -/
structure CacheDoc (α : Type) where
  timestamp : TsVal
  movies : Option (List α)
  deriving DecidableEq, Repr

/-- A Python exception escaping a handler: either a raised
`HTTPException(status_code, detail)` or an uncaught `ValueError`
(as raised by `datetime.fromisoformat` on a bad string). -/
inductive PyError where
  | httpException (statusCode : Int) (detail : String)
  | valueError (msg : String)
  deriving DecidableEq, Repr

/-- Behaviour of the external TMDB endpoint for one outbound
`requests.get`: either the request succeeds with a success status and the
decoded JSON body has `results = some rs` (or no `results` key at all,
`none`), or a `requests.RequestException` is raised — by the transport or
by `raise_for_status` on a non-success status — with text `errText`. -/
inductive FetchOutcome (α : Type) where
  | success (results : Option (List α))
  | failure (errText : String)
  deriving DecidableEq, Repr

/-- `fetch_trending_movies` (src/app.py:77-92): on success returns
`data.get("results", [])`; on `RequestException e` raises
`HTTPException(status_code=500, detail=f"Error fetching TMDB data: {e}")`. -/
def fetch_trending_movies {α : Type} (o : FetchOutcome α) : Except PyError (List α) :=
  match o with
  | .success results => .ok (results.getD [])
  | .failure e => .error (.httpException 500 ("Error fetching TMDB data: " ++ e))

/-- `CACHE_DURATION = 86400` seconds (src/app.py:31). -/
def CACHE_DURATION : Int := 86400

/-- Everything observable about one call to `get_cached_trending_movies`:
its returned value or escaped exception, the cache document afterwards,
whether `fetch_trending_movies` was invoked, and whether `cache_ref.set`
ran. -/
structure GCResult (α : Type) where
  result : Except PyError (List α)
  cache : Option (CacheDoc α)
  fetchedExternal : Bool
  wroteStore : Bool

/-- The refresh tail of `get_cached_trending_movies` (src/app.py:110-115):
`movies = fetch_trending_movies()` — which may raise, leaving the store
untouched — then `cache_ref.set({"movies": movies, "timestamp":
datetime.now().isoformat()})` and `return movies`. The written timestamp
string parses back to `now`. -/
def refreshCache {α : Type} (now : Int) (o : FetchOutcome α)
    (cache_doc : Option (CacheDoc α)) : GCResult α :=
  match fetch_trending_movies o with
  | .error e => ⟨.error e, cache_doc, true, false⟩
  | .ok movies => ⟨.ok movies, some ⟨TsVal.valid now, some movies⟩, true, true⟩

/-- `get_cached_trending_movies` (src/app.py:94-115): read the singleton
document; if it is truthy, read its `timestamp` key; if that is truthy,
parse it (`datetime.fromisoformat` raising `ValueError` on a bad string)
and serve `cache_doc.get("movies", [])` when
`(datetime.now() - cached_datetime).total_seconds() < CACHE_DURATION`;
in every other case fall through to the refresh tail. -/
def get_cached_trending_movies {α : Type} (now : Int) (o : FetchOutcome α)
    (cache_doc : Option (CacheDoc α)) : GCResult α :=
  match cache_doc with
  | some doc =>
    match doc.timestamp with
    | TsVal.valid t =>
      if now - t < CACHE_DURATION then
        ⟨.ok (doc.movies.getD []), cache_doc, false, false⟩
      else
        refreshCache now o cache_doc
    | TsVal.invalid s =>
      ⟨.error (.valueError ("Invalid isoformat string: " ++ s)), cache_doc, false, false⟩
    | TsVal.emptyStr => refreshCache now o cache_doc
    | TsVal.missing => refreshCache now o cache_doc
  | none => refreshCache now o cache_doc

/-- The `GET /trending-movies` handler (src/app.py:132-137) just awaits
`get_cached_trending_movies`. -/
def get_trending_movies {α : Type} (now : Int) (o : FetchOutcome α)
    (cache_doc : Option (CacheDoc α)) : GCResult α :=
  get_cached_trending_movies now o cache_doc

/-- Pydantic model `EventData` (src/app.py:16-17). -/
structure EventData where
  movie_id : Int
  deriving DecidableEq, Repr

/-- Pydantic model `InteractionEvent` (src/app.py:19-23). -/
structure InteractionEvent where
  user_id : String
  event_type : String
  event_data : EventData
  timestamp : String
  deriving DecidableEq, Repr

/-- One record written under `interactions/<key>` (src/app.py:150-156). -/
structure InteractionRecord where
  user_id : String
  event_type : String
  event_data : EventData
  timestamp : String
  created_at : Int
  deriving DecidableEq, Repr

/-- The `interactions` collection: a keyed document store. -/
def InteractionStore : Type := String → Option InteractionRecord

/-- The success payload of `POST /track` (src/app.py:161-165). -/
structure TrackResponse where
  status : String
  message : String
  interaction_id : String
  deriving DecidableEq, Repr

/-- The body of `track_interaction` (src/app.py:140-165) on the success
path: build `interaction_data` from the validated event plus the server
timestamp `datetime.now().isoformat()`, push it under the fresh key
generated by Firebase (`newKey`), and return the success payload carrying
`new_interaction.key`. -/
def track_interaction (event : InteractionEvent) (now : Int) (newKey : String)
    (store : InteractionStore) : TrackResponse × InteractionStore :=
  let interaction_data : InteractionRecord :=
    ⟨event.user_id, event.event_type, event.event_data, event.timestamp, now⟩
  ⟨⟨"success", "Interaction tracked successfully", newKey⟩,
    fun k => if k = newKey then some interaction_data else store k⟩

/-- A JSON value, as much of it as a `POST /track` body needs. -/
inductive JsonVal where
  | jstr (s : String)
  | jint (n : Int)
  | jobj (fields : List (String × JsonVal))
  | jnull

/-- Dictionary lookup on a JSON object's field list. -/
def jsonGet (fields : List (String × JsonVal)) (key : String) : Option JsonVal :=
  match fields with
  | [] => none
  | (k, v) :: rest => if k = key then some v else jsonGet rest key

/-- Modelled from the spec: the framework-level shape validation that the
`event: InteractionEvent` parameter of `POST /track` declares but whose
implementation lives in FastAPI/pydantic, outside this repository — a
string field must hold a string, `event_data.movie_id` an integer, and a
missing field fails validation. Extracts `EventData`. -/
def parseEventData (v : JsonVal) : Option EventData :=
  match v with
  | .jobj fields =>
    match jsonGet fields "movie_id" with
    | some (.jint n) => some ⟨n⟩
    | _ => none
  | _ => none

/-- Modelled from the spec: framework-level validation of a `/track` body
against the `InteractionEvent` shape (see `parseEventData`). -/
def parseInteractionEvent (v : JsonVal) : Option InteractionEvent :=
  match v with
  | .jobj fields =>
    match jsonGet fields "user_id", jsonGet fields "event_type",
          jsonGet fields "event_data", jsonGet fields "timestamp" with
    | some (.jstr u), some (.jstr ty), some ed, some (.jstr ts) =>
      match parseEventData ed with
      | some d => some ⟨u, ty, d, ts⟩
      | none => none
    | _, _, _, _ => none
  | _ => none

/-- Outcome of `POST /track` at the HTTP level: the handler's success
payload, or the standard framework 422 when the body fails validation. -/
inductive TrackHttpResult where
  | ok (resp : TrackResponse)
  | validationFailure

/-- HTTP status of a `POST /track` outcome: 200 on success, 422 on a
shape-validation failure. -/
def trackStatusCode : TrackHttpResult → Int
  | .ok _ => 200
  | .validationFailure => 422

/-- Modelled from the spec: FastAPI dispatch of `POST /track` — the body is
validated against `InteractionEvent` before the handler runs; on failure
the framework answers 422 itself and the handler (hence any store write)
is never reached. -/
def post_track (body : JsonVal) (now : Int) (newKey : String)
    (store : InteractionStore) : TrackHttpResult × InteractionStore :=
  match parseInteractionEvent body with
  | none => ⟨.validationFailure, store⟩
  | some event =>
    let r := track_interaction event now newKey store
    ⟨.ok r.1, r.2⟩

/-! ## Theorems -/

/-- Claim C1, amended: for every call to `get_cached_trending_movies` where
the singleton cache entry is present and its timestamp is strictly less
than 24 hours (86400 seconds) old relative to the current time, the
function returns the entry's stored movie list, does not invoke
`fetch_trending_movies`, and does not write to the store. -/
theorem C1_fresh_cache_hit {α : Type} (now t : Int) (o : FetchOutcome α)
    (ms : List α) (hfresh : now - t < CACHE_DURATION) :
    (get_cached_trending_movies now o (some ⟨TsVal.valid t, some ms⟩)).result = .ok ms ∧
    (get_cached_trending_movies now o (some ⟨TsVal.valid t, some ms⟩)).fetchedExternal = false ∧
    (get_cached_trending_movies now o (some ⟨TsVal.valid t, some ms⟩)).wroteStore = false ∧
    (get_cached_trending_movies now o (some ⟨TsVal.valid t, some ms⟩)).cache =
      some ⟨TsVal.valid t, some ms⟩ := by
  simp [get_cached_trending_movies, hfresh]

/-- Witness for C1: a concrete fresh cache hit, 50 seconds after the
cached fetch. -/
theorem C1_fresh_cache_hit_witness :
    (100 : Int) - 50 < CACHE_DURATION ∧
    (get_cached_trending_movies 100 (FetchOutcome.success (some [(9 : Int)]))
      (some ⟨TsVal.valid 50, some [1, 2]⟩)).result = .ok [1, 2] ∧
    (get_cached_trending_movies 100 (FetchOutcome.success (some [(9 : Int)]))
      (some ⟨TsVal.valid 50, some [1, 2]⟩)).fetchedExternal = false ∧
    (get_cached_trending_movies 100 (FetchOutcome.success (some [(9 : Int)]))
      (some ⟨TsVal.valid 50, some [1, 2]⟩)).wroteStore = false ∧
    (get_cached_trending_movies 100 (FetchOutcome.success (some [(9 : Int)]))
      (some ⟨TsVal.valid 50, some [1, 2]⟩)).cache = some ⟨TsVal.valid 50, some [1, 2]⟩ := by
  refine ⟨by decide, ?_⟩
  exact C1_fresh_cache_hit 100 50 (FetchOutcome.success (some [(9 : Int)])) [1, 2] (by decide)

/-- Counterexample to claim C1 as stated: a cache entry exactly 24 hours
(86400 seconds) old is "no older than 24 hours", yet the code's freshness
test is strict (`< CACHE_DURATION`), so the external client IS invoked and
the freshly fetched list, not the stored one, is returned. -/
theorem C1_counterexample :
    (86400 : Int) - 0 ≤ 24 * 60 * 60 ∧
    (get_cached_trending_movies 86400 (FetchOutcome.success (some [(3 : Int)]))
      (some ⟨TsVal.valid 0, some [1, 2]⟩)).fetchedExternal = true ∧
    (get_cached_trending_movies 86400 (FetchOutcome.success (some [(3 : Int)]))
      (some ⟨TsVal.valid 0, some [1, 2]⟩)).result = .ok [3] ∧
    (get_cached_trending_movies 86400 (FetchOutcome.success (some [(3 : Int)]))
      (some ⟨TsVal.valid 0, some [1, 2]⟩)).wroteStore = true := by
  refine ⟨by decide, ?_, ?_, ?_⟩ <;> rfl

/-- Claim C2: when the cache entry is absent, older than the freshness
window, or present without a timestamp field, and the fetch succeeds with
`results = rs`, `get_cached_trending_movies` invokes the external client,
overwrites the singleton entry in full with the fetched list and the
current timestamp, and returns the freshly fetched list. -/
theorem C2_stale_or_absent_refresh {α : Type} (now : Int) (rs : Option (List α))
    (cache_doc : Option (CacheDoc α))
    (h : cache_doc = none ∨
      (∃ doc t, cache_doc = some doc ∧ doc.timestamp = TsVal.valid t ∧
        now - t > CACHE_DURATION) ∨
      (∃ doc, cache_doc = some doc ∧ doc.timestamp = TsVal.missing)) :
    (get_cached_trending_movies now (FetchOutcome.success rs) cache_doc).fetchedExternal = true ∧
    (get_cached_trending_movies now (FetchOutcome.success rs) cache_doc).wroteStore = true ∧
    (get_cached_trending_movies now (FetchOutcome.success rs) cache_doc).cache =
      some ⟨TsVal.valid now, some (rs.getD [])⟩ ∧
    (get_cached_trending_movies now (FetchOutcome.success rs) cache_doc).result =
      .ok (rs.getD []) := by
  rcases h with h | ⟨doc, t, hdoc, hts, hstale⟩ | ⟨doc, hdoc, hts⟩
  · subst h
    simp [get_cached_trending_movies, refreshCache, fetch_trending_movies]
  · subst hdoc
    obtain ⟨ts, mv⟩ := doc
    simp only [CacheDoc.timestamp] at hts
    subst hts
    have hlt : ¬ (now - t < CACHE_DURATION) := by
      simp only [CACHE_DURATION] at hstale ⊢; omega
    simp [get_cached_trending_movies, hlt, refreshCache, fetch_trending_movies]
  · subst hdoc
    obtain ⟨ts, mv⟩ := doc
    simp only [CacheDoc.timestamp] at hts
    subst hts
    simp [get_cached_trending_movies, refreshCache, fetch_trending_movies]

/-- Witness for C2: a concrete call on an empty cache. -/
theorem C2_stale_or_absent_refresh_witness :
    ((none : Option (CacheDoc Int)) = none ∨
      (∃ doc t, (none : Option (CacheDoc Int)) = some doc ∧
        doc.timestamp = TsVal.valid t ∧ (0 : Int) - t > CACHE_DURATION) ∨
      (∃ doc, (none : Option (CacheDoc Int)) = some doc ∧
        doc.timestamp = TsVal.missing)) ∧
    (get_cached_trending_movies 0 (FetchOutcome.success (some [5]))
      (none : Option (CacheDoc Int))).fetchedExternal = true ∧
    (get_cached_trending_movies 0 (FetchOutcome.success (some [5]))
      (none : Option (CacheDoc Int))).wroteStore = true ∧
    (get_cached_trending_movies 0 (FetchOutcome.success (some [5]))
      (none : Option (CacheDoc Int))).cache = some ⟨TsVal.valid 0, some [5]⟩ ∧
    (get_cached_trending_movies 0 (FetchOutcome.success (some [5]))
      (none : Option (CacheDoc Int))).result = .ok [5] := by
  refine ⟨Or.inl rfl, ?_⟩
  exact C2_stale_or_absent_refresh 0 (some [5]) none (Or.inl rfl)

/-- Claim C3: `GET /trending-movies` on an empty or stale cache, with the
external client failing (transport error or non-success status raised by
`raise_for_status`), propagates `HTTPException(500, ...)` carrying the
underlying error text, and the cache entry is left unchanged — in
particular an empty cache stays empty, with no write at all. -/
theorem C3_failure_no_partial_write {α : Type} (now : Int) (e : String)
    (cache_doc : Option (CacheDoc α))
    (h : cache_doc = none ∨
      ∃ doc t, cache_doc = some doc ∧ doc.timestamp = TsVal.valid t ∧
        now - t ≥ CACHE_DURATION) :
    (get_trending_movies now (FetchOutcome.failure e) cache_doc).result =
      .error (.httpException 500 ("Error fetching TMDB data: " ++ e)) ∧
    (get_trending_movies now (FetchOutcome.failure e) cache_doc).cache = cache_doc ∧
    (get_trending_movies now (FetchOutcome.failure e) cache_doc).wroteStore = false := by
  rcases h with h | ⟨doc, t, hdoc, hts, hstale⟩
  · subst h
    simp [get_trending_movies, get_cached_trending_movies, refreshCache,
      fetch_trending_movies]
  · subst hdoc
    obtain ⟨ts, mv⟩ := doc
    simp only [CacheDoc.timestamp] at hts
    subst hts
    have hlt : ¬ (now - t < CACHE_DURATION) := by
      simp only [CACHE_DURATION] at hstale ⊢; omega
    simp [get_trending_movies, get_cached_trending_movies, hlt, refreshCache,
      fetch_trending_movies]

/-- Witness for C3: a concrete failing fetch on an empty cache. -/
theorem C3_failure_no_partial_write_witness :
    ((none : Option (CacheDoc Int)) = none ∨
      ∃ doc t, (none : Option (CacheDoc Int)) = some doc ∧
        doc.timestamp = TsVal.valid t ∧ (0 : Int) - t ≥ CACHE_DURATION) ∧
    (get_trending_movies 0 (FetchOutcome.failure "502 Server Error")
      (none : Option (CacheDoc Int))).result =
      .error (.httpException 500 ("Error fetching TMDB data: " ++ "502 Server Error")) ∧
    (get_trending_movies 0 (FetchOutcome.failure "502 Server Error")
      (none : Option (CacheDoc Int))).cache = none ∧
    (get_trending_movies 0 (FetchOutcome.failure "502 Server Error")
      (none : Option (CacheDoc Int))).wroteStore = false := by
  refine ⟨Or.inl rfl, ?_⟩
  exact C3_failure_no_partial_write 0 "502 Server Error" none (Or.inl rfl)

/-- Claim C4: a structurally valid event submitted to `POST /track`,
looked up in the interactions store under the returned generated id,
yields a record whose `user_id`, `event_type`, `event_data`, and
`timestamp` equal the submitted payload, plus a server `created_at` no
earlier than the request's arrival time; the generated key is returned in
the success payload. -/
theorem C4_track_roundtrip (event : InteractionEvent) (arrival now : Int)
    (newKey : String) (store : InteractionStore) (h : arrival ≤ now) :
    (track_interaction event now newKey store).1.interaction_id = newKey ∧
    (track_interaction event now newKey store).1.status = "success" ∧
    ∃ rec, (track_interaction event now newKey store).2 newKey = some rec ∧
      rec.user_id = event.user_id ∧ rec.event_type = event.event_type ∧
      rec.event_data = event.event_data ∧ rec.timestamp = event.timestamp ∧
      arrival ≤ rec.created_at := by
  refine ⟨rfl, rfl, ⟨event.user_id, event.event_type, event.event_data,
    event.timestamp, now⟩, ?_, rfl, rfl, rfl, rfl, h⟩
  simp [track_interaction]

/-- Witness for C4: one concrete tracked event in an empty store. -/
theorem C4_track_roundtrip_witness :
    (3 : Int) ≤ 5 ∧
    ((track_interaction ⟨"u1", "click", ⟨7⟩, "2024-01-01T00:00:00"⟩ 5 "k0"
        (fun _ => none)).1.interaction_id = "k0" ∧
      (track_interaction ⟨"u1", "click", ⟨7⟩, "2024-01-01T00:00:00"⟩ 5 "k0"
        (fun _ => none)).1.status = "success" ∧
      ∃ rec, (track_interaction ⟨"u1", "click", ⟨7⟩, "2024-01-01T00:00:00"⟩ 5 "k0"
          (fun _ => none)).2 "k0" = some rec ∧
        rec.user_id = "u1" ∧ rec.event_type = "click" ∧
        rec.event_data = ⟨7⟩ ∧ rec.timestamp = "2024-01-01T00:00:00" ∧
        (3 : Int) ≤ rec.created_at) :=
  ⟨by decide,
    C4_track_roundtrip ⟨"u1", "click", ⟨7⟩, "2024-01-01T00:00:00"⟩ 3 5 "k0"
      (fun _ => none) (by decide)⟩

/-- Claim C5: `fetch_trending_movies`, when the outbound request succeeds
with a success status, returns the `results` field of the decoded body, or
the empty list if that field is absent. -/
theorem C5_fetch_returns_results {α : Type} (rs : Option (List α)) :
    fetch_trending_movies (FetchOutcome.success rs) = .ok (rs.getD []) ∧
    fetch_trending_movies (FetchOutcome.success (none : Option (List α))) =
      .ok ([] : List α) :=
  ⟨rfl, rfl⟩

/-- Claim C6: a cache read after the freshness window has elapsed whose
refresh succeeds shows exactly one refresh cycle: the external client is
invoked and the entry is overwritten with the new timestamp `now`, which
is at least the old timestamp `t`. -/
theorem C6_refresh_cycle {α : Type} (now t : Int) (rs : Option (List α))
    (mv : Option (List α)) (helapsed : now - t ≥ CACHE_DURATION) :
    (get_cached_trending_movies now (FetchOutcome.success rs)
      (some ⟨TsVal.valid t, mv⟩)).fetchedExternal = true ∧
    (get_cached_trending_movies now (FetchOutcome.success rs)
      (some ⟨TsVal.valid t, mv⟩)).wroteStore = true ∧
    (get_cached_trending_movies now (FetchOutcome.success rs)
      (some ⟨TsVal.valid t, mv⟩)).cache =
      some ⟨TsVal.valid now, some (rs.getD [])⟩ ∧
    t ≤ now := by
  have hlt : ¬ (now - t < CACHE_DURATION) := by
    simp only [CACHE_DURATION] at helapsed ⊢; omega
  have hle : t ≤ now := by
    simp only [CACHE_DURATION] at helapsed; omega
  simp [get_cached_trending_movies, hlt, refreshCache, fetch_trending_movies, hle]

/-- Witness for C6: a concrete read 86401 seconds after the cached fetch. -/
theorem C6_refresh_cycle_witness :
    (86401 : Int) - 0 ≥ CACHE_DURATION ∧
    (get_cached_trending_movies 86401 (FetchOutcome.success (some [(4 : Int)]))
      (some ⟨TsVal.valid 0, some [1]⟩)).fetchedExternal = true ∧
    (get_cached_trending_movies 86401 (FetchOutcome.success (some [(4 : Int)]))
      (some ⟨TsVal.valid 0, some [1]⟩)).wroteStore = true ∧
    (get_cached_trending_movies 86401 (FetchOutcome.success (some [(4 : Int)]))
      (some ⟨TsVal.valid 0, some [1]⟩)).cache = some ⟨TsVal.valid 86401, some [4]⟩ ∧
    (0 : Int) ≤ 86401 := by
  refine ⟨by decide, ?_⟩
  exact C6_refresh_cycle 86401 0 (some [4]) (some [1]) (by decide)

/-- Claim C7: a `POST /track` body that does not match the
`InteractionEvent` shape is answered with HTTP 422 and no interaction
record is created — the store is unchanged. -/
theorem C7_malformed_track_422 (body : JsonVal) (now : Int) (newKey : String)
    (store : InteractionStore) (h : parseInteractionEvent body = none) :
    trackStatusCode (post_track body now newKey store).1 = 422 ∧
    (post_track body now newKey store).2 = store := by
  simp [post_track, h, trackStatusCode]

/-- Witness for C7: a concrete body missing `user_id` fails validation,
yields 422, and leaves the (empty) store empty. -/
theorem C7_malformed_track_422_witness :
    parseInteractionEvent (JsonVal.jobj
      [("event_type", JsonVal.jstr "click"),
       ("event_data", JsonVal.jobj [("movie_id", JsonVal.jint 7)]),
       ("timestamp", JsonVal.jstr "2024-01-01T00:00:00")]) = none ∧
    (trackStatusCode (post_track (JsonVal.jobj
      [("event_type", JsonVal.jstr "click"),
       ("event_data", JsonVal.jobj [("movie_id", JsonVal.jint 7)]),
       ("timestamp", JsonVal.jstr "2024-01-01T00:00:00")]) 5 "k0"
        (fun _ => none)).1 = 422 ∧
      (post_track (JsonVal.jobj
        [("event_type", JsonVal.jstr "click"),
         ("event_data", JsonVal.jobj [("movie_id", JsonVal.jint 7)]),
         ("timestamp", JsonVal.jstr "2024-01-01T00:00:00")]) 5 "k0"
          (fun _ => none)).2 = (fun _ => none)) :=
  ⟨rfl,
    C7_malformed_track_422 (JsonVal.jobj
      [("event_type", JsonVal.jstr "click"),
       ("event_data", JsonVal.jobj [("movie_id", JsonVal.jint 7)]),
       ("timestamp", JsonVal.jstr "2024-01-01T00:00:00")]) 5 "k0"
      (fun _ => none) rfl⟩

/-- Claim C8: a present, fresh cache entry that lacks a `movies` field
makes `get_cached_trending_movies` return the empty list, without invoking
the external client and without writing to the store. -/
theorem C8_fresh_missing_movies {α : Type} (now t : Int) (o : FetchOutcome α)
    (hfresh : now - t < CACHE_DURATION) :
    (get_cached_trending_movies now o
      (some ⟨TsVal.valid t, (none : Option (List α))⟩)).result = .ok [] ∧
    (get_cached_trending_movies now o
      (some ⟨TsVal.valid t, (none : Option (List α))⟩)).fetchedExternal = false ∧
    (get_cached_trending_movies now o
      (some ⟨TsVal.valid t, (none : Option (List α))⟩)).wroteStore = false := by
  simp [get_cached_trending_movies, hfresh]

/-- Witness for C8: a concrete fresh entry with no `movies` key. -/
theorem C8_fresh_missing_movies_witness :
    (10 : Int) - 0 < CACHE_DURATION ∧
    (get_cached_trending_movies 10 (FetchOutcome.success (some [(2 : Int)]))
      (some ⟨TsVal.valid 0, (none : Option (List Int))⟩)).result = .ok [] ∧
    (get_cached_trending_movies 10 (FetchOutcome.success (some [(2 : Int)]))
      (some ⟨TsVal.valid 0, (none : Option (List Int))⟩)).fetchedExternal = false ∧
    (get_cached_trending_movies 10 (FetchOutcome.success (some [(2 : Int)]))
      (some ⟨TsVal.valid 0, (none : Option (List Int))⟩)).wroteStore = false := by
  refine ⟨by decide, ?_⟩
  exact C8_fresh_missing_movies 10 0 (FetchOutcome.success (some [(2 : Int)])) (by decide)

/-- Claim C9: a cache entry whose `timestamp` field is present and
non-empty but not parsable as an ISO datetime makes
`get_cached_trending_movies` raise an uncaught `ValueError`: the entry is
not treated as stale — no refresh, no fetch, no store write occurs. -/
theorem C9_unparsable_timestamp_raises {α : Type} (now : Int) (o : FetchOutcome α)
    (s : String) (mv : Option (List α)) :
    (get_cached_trending_movies now o (some ⟨TsVal.invalid s, mv⟩)).result =
      .error (.valueError ("Invalid isoformat string: " ++ s)) ∧
    (get_cached_trending_movies now o (some ⟨TsVal.invalid s, mv⟩)).fetchedExternal = false ∧
    (get_cached_trending_movies now o (some ⟨TsVal.invalid s, mv⟩)).wroteStore = false ∧
    (get_cached_trending_movies now o (some ⟨TsVal.invalid s, mv⟩)).cache =
      some ⟨TsVal.invalid s, mv⟩ := by
  simp [get_cached_trending_movies]

/-- Claim C10: a cache entry whose timestamp lies in the future passes the
freshness check — the elapsed difference is negative, hence below the
24-hour threshold — so the stored list is served as fresh, however far in
the future the timestamp lies. -/
theorem C10_future_timestamp_fresh {α : Type} (now t : Int) (o : FetchOutcome α)
    (mv : Option (List α)) (hfuture : now < t) :
    now - t < CACHE_DURATION ∧
    (get_cached_trending_movies now o (some ⟨TsVal.valid t, mv⟩)).result =
      .ok (mv.getD []) ∧
    (get_cached_trending_movies now o (some ⟨TsVal.valid t, mv⟩)).fetchedExternal = false ∧
    (get_cached_trending_movies now o (some ⟨TsVal.valid t, mv⟩)).wroteStore = false := by
  have hfresh : now - t < CACHE_DURATION := by
    simp only [CACHE_DURATION]; omega
  exact ⟨hfresh, by simp [get_cached_trending_movies, hfresh]⟩

/-- Witness for C10: a concrete entry stamped one million seconds in the
future is served as fresh. -/
theorem C10_future_timestamp_fresh_witness :
    (0 : Int) < 1000000 ∧
    ((0 : Int) - 1000000 < CACHE_DURATION ∧
      (get_cached_trending_movies 0 (FetchOutcome.success (some [(8 : Int)]))
        (some ⟨TsVal.valid 1000000, some [6]⟩)).result = .ok [6] ∧
      (get_cached_trending_movies 0 (FetchOutcome.success (some [(8 : Int)]))
        (some ⟨TsVal.valid 1000000, some [6]⟩)).fetchedExternal = false ∧
      (get_cached_trending_movies 0 (FetchOutcome.success (some [(8 : Int)]))
        (some ⟨TsVal.valid 1000000, some [6]⟩)).wroteStore = false) :=
  ⟨by decide,
    C10_future_timestamp_fresh 0 1000000 (FetchOutcome.success (some [(8 : Int)]))
      (some [6]) (by decide)⟩

end MovieRec
